import Mathlib

/-!
Verification of the energy-mix generation API (types / generators /
production records) against its specification.

The development shallowly embeds the parts of the repository that the
claims are about:

* the relational state (tables of the schema in the SQL DDL file:
  types, generators, productions), with UUIDs modelled as naturals,
  calendar dates as naturals and SQL decimal values as rationals;
* the Go repository operations (UpdateType, UpdateProduction,
  GetProductionByID, the three list queries) including the uniqueness,
  foreign-key and NOT NULL constraints the schema enforces on them;
* the stored SQL procedures and analytical query functions
  (insert_type, get_total_production_by_date_range,
  get_generator_efficiency, get_renewable_summary);
* the HTTP handler boundary logic (query-parameter parsing, the Go
  strconv.ParseBool semantics, error-to-status mapping, and the
  nil-slice-to-empty-array replacement before serialization).
-/

/-- A row of the types table: id UUID, name varchar(20) NOT NULL,
description varchar(80) NOT NULL, isrenuevable bool NOT NULL. -/
structure TypeRow where
  id : Nat
  name : String
  description : String
  isRenewable : Bool
deriving DecidableEq

/-- A row of the generators table: id UUID, type UUID NOT NULL
(foreign key to types), capacity float NOT NULL. -/
structure GenRow where
  id : Nat
  typeId : Nat
  capacity : ℚ
deriving DecidableEq

/-- A row of the productions table: id UUID, generator_id UUID NOT NULL
(foreign key to generators), date date NOT NULL, production_mw decimal
NOT NULL, with UNIQUE(generator_id, date). -/
structure ProdRow where
  id : Nat
  generatorId : Nat
  date : Nat
  productionMW : ℚ
deriving DecidableEq

/-- The relational state: the three tables of the core schema. -/
structure State where
  types : List TypeRow
  generators : List GenRow
  productions : List ProdRow
deriving DecidableEq

/-- Errors surfaced by the store: pgx ErrNoRows (mapped by the
repository to sql.ErrNoRows), the constraint violations of the schema,
and the exceptions raised by the stored procedures. -/
inductive RepoErr where
  | noRows
  | uniqueViolation
  | fkViolation
  | notNullViolation
  | duplicateName
  | duplicatePeriod
  | nullOrEmpty
  | valueTooLong
  | undefinedFunction
  | other
deriving DecidableEq

/-- PostgreSQL ROUND for numeric arguments: round half away from zero
to an integer. -/
def roundHalfAway (x : ℚ) : ℤ :=
  if 0 ≤ x then ⌊x + 1/2⌋ else ⌈x - 1/2⌉

/-- ROUND(x, 2): round to two decimal places, half away from zero. -/
def round2 (x : ℚ) : ℚ :=
  (roundHalfAway (x * 100) : ℚ) / 100

/-- SQL lower(): lowercase every character of the string. -/
def lowerStr (s : String) : String :=
  ⟨s.data.map Char.toLower⟩

/-! ## Go repository: type update

Request body for PUT /types/:id. In Go, Name and Description are plain
strings (the zero value, the empty string, stands for an omitted JSON
field) and IsRenewable is a bool pointer (nil when omitted). -/

structure UpdateTypeRequest where
  name : String
  description : String
  isRenewable : Option Bool
deriving DecidableEq

/-- The repository UpdateType: runs
UPDATE types SET name = $2, description = $3, isrenuevable = $4 WHERE id = $1
with the request fields passed through verbatim (no COALESCE), then
returns the updated row.  A nil IsRenewable pointer arrives as SQL NULL
and violates the NOT NULL constraint on the column; a name equal to a
different row's name violates the UNIQUE constraint; an id that matches
no row yields ErrNoRows. -/
def UpdateType (st : State) (id : Nat) (req : UpdateTypeRequest) :
    Except RepoErr (State × TypeRow) :=
  match req.isRenewable with
  | none => .error .notNullViolation
  | some b =>
    if st.types.any (fun u => decide (u.id ≠ id) && decide (u.name = req.name)) then
      .error .uniqueViolation
    else
      match st.types.find? (fun t => t.id = id) with
      | none => .error .noRows
      | some t =>
        let t' : TypeRow :=
          { id := t.id, name := req.name, description := req.description,
            isRenewable := b }
        .ok ({ st with types := st.types.map (fun u => if u.id = id then t' else u) }, t')

/-! ## Go repository: production update -/

/-- Request body for PUT /productions/:id: all three fields are
pointers, nil when omitted from the JSON body. -/
structure UpdateProductionRequest where
  generatorID : Option Nat
  date : Option Nat
  productionMW : Option ℚ
deriving DecidableEq

/-- The view returned by GetProductionByID: the production row joined
with its generator's capacity and its type's name and renewable flag. -/
structure ProdView where
  id : Nat
  generatorId : Nat
  generatorCapacity : ℚ
  typeName : String
  isRenewable : Bool
  date : Nat
  productionMW : ℚ
deriving DecidableEq

/-- The repository GetProductionByID: SELECT joining productions with
generators and types on the foreign keys; no matching joined row is
ErrNoRows. -/
def GetProductionByID (st : State) (id : Nat) : Except RepoErr ProdView :=
  match st.productions.find? (fun p => p.id = id) with
  | none => .error .noRows
  | some p =>
    match st.generators.find? (fun g => g.id = p.generatorId) with
    | none => .error .noRows
    | some g =>
      match st.types.find? (fun t => t.id = g.typeId) with
      | none => .error .noRows
      | some t =>
        .ok { id := p.id, generatorId := p.generatorId,
              generatorCapacity := g.capacity, typeName := t.name,
              isRenewable := t.isRenewable, date := p.date,
              productionMW := p.productionMW }

/-- The repository UpdateProduction: runs
UPDATE productions SET generator_id = COALESCE($2, generator_id),
date = COALESCE($3, date), production_mw = COALESCE($4, production_mw)
WHERE id = $1, subject to the UNIQUE(generator_id, date) and foreign-key
constraints, then re-reads the row with GetProductionByID.  An id that
matches no row updates nothing and the re-read yields ErrNoRows. -/
def UpdateProduction (st : State) (id : Nat) (req : UpdateProductionRequest) :
    Except RepoErr (State × ProdView) :=
  match st.productions.find? (fun q => q.id = id) with
  | none => .error .noRows
  | some p =>
    let p' : ProdRow :=
      { id := p.id,
        generatorId := req.generatorID.getD p.generatorId,
        date := req.date.getD p.date,
        productionMW := req.productionMW.getD p.productionMW }
    if st.productions.any (fun q =>
        decide (q.id ≠ id) && decide (q.generatorId = p'.generatorId)
          && decide (q.date = p'.date)) then
      .error .uniqueViolation
    else if st.generators.all (fun g => decide (g.id ≠ p'.generatorId)) then
      .error .fkViolation
    else
      let st' : State :=
        { st with productions := st.productions.map (fun q => if q.id = id then p' else q) }
      match GetProductionByID st' id with
      | .error e => .error e
      | .ok v => .ok (st', v)

/-! ## SQL stored procedure core.insert_type -/

/-- A create-type request: name, description, renewable flag. -/
structure CreateTypeReq where
  name : String
  description : String
  isRenewable : Bool
deriving DecidableEq

/-- Fresh id for an inserted type row (the DEFAULT uuid_generate_v4 of
the schema, modelled as one more than the largest existing id). -/
def typeNextId (st : State) : Nat :=
  (st.types.map (fun t => t.id)).foldr max 0 + 1

/-- The stored procedure core.insert_type: rejects null/empty name or
description, rejects a name whose lower() form equals the lower() form
of an existing type's name (the case-insensitive duplicate check), then
inserts, subject to the varchar(20)/varchar(80) column lengths. -/
def insert_type (st : State) (p_name p_description : String)
    (p_is_renuevable : Bool) : Except RepoErr State :=
  if p_name.length = 0 ∨ p_description.length = 0 then
    .error .nullOrEmpty
  else if st.types.any (fun t => lowerStr t.name = lowerStr p_name) then
    .error .duplicateName
  else if 20 < p_name.length ∨ 80 < p_description.length then
    .error .valueTooLong
  else
    .ok { st with
          types := st.types ++
            [{ id := typeNextId st, name := p_name,
               description := p_description, isRenewable := p_is_renuevable }] }

/-- Run a sequence of core.insert_type calls, stopping at the first
failure. -/
def insert_type_all (st : State) : List CreateTypeReq → Except RepoErr State
  | [] => .ok st
  | r :: rs =>
    match insert_type st r.name r.description r.isRenewable with
    | .ok st' => insert_type_all st' rs
    | .error e => .error e

/-! ## SQL analytical function core.get_total_production_by_date_range -/

/-- One result row of get_total_production_by_date_range. -/
structure DateRow where
  date : Nat
  total_production : ℚ
  renewable_production : ℚ
  non_renewable_production : ℚ
deriving DecidableEq

/-- The production rows in the inclusive range [s, e] joined with their
generator and its type (the FROM/JOIN/WHERE part of the query),
projected to (date, production_mw, isrenuevable). -/
def joinedInRange (s e : Nat) (st : State) : List (Nat × ℚ × Bool) :=
  (st.productions.filter (fun p => decide (s ≤ p.date) && decide (p.date ≤ e))).flatMap
    (fun p =>
      (st.generators.filter (fun g => g.id = p.generatorId)).flatMap (fun g =>
        (st.types.filter (fun t => t.id = g.typeId)).map (fun t =>
          (p.date, p.productionMW, t.isRenewable))))

/-- One GROUP BY p.date group of get_total_production_by_date_range:
SUM(production_mw), SUM(CASE WHEN isrenuevable = true THEN
production_mw ELSE 0 END) and SUM(CASE WHEN isrenuevable = false THEN
production_mw ELSE 0 END) over the joined rows of one date. -/
def dateRowFor (s e : Nat) (st : State) (d : Nat) : DateRow :=
  let rs := (joinedInRange s e st).filter (fun r => r.1 = d)
  { date := d,
    total_production := (rs.map (fun r => r.2.1)).sum,
    renewable_production := (rs.map (fun r => if r.2.2 then r.2.1 else 0)).sum,
    non_renewable_production :=
      (rs.map (fun r => if r.2.2 = false then r.2.1 else 0)).sum }

/-- core.get_total_production_by_date_range: group the joined rows by
date (one group per distinct date among them), ORDER BY date DESC. -/
def get_total_production_by_date_range (s e : Nat) (st : State) : List DateRow :=
  (((joinedInRange s e st).map (fun r => r.1)).dedup.map (dateRowFor s e st)).mergeSort
    (fun a b => decide (b.date ≤ a.date))

/-! ## SQL analytical function core.get_generator_efficiency -/

/-- The PostgreSQL data types involved in the efficiency expression:
numeric (the DECIMAL of production_mw), double precision (the FLOAT of
capacity) and integer (numeric literals such as 100 and 2). -/
inductive PgTy where
  | numeric
  | float8
  | int4
deriving DecidableEq

/-- Result type of AVG: numeric inputs (numeric, integer) average to
numeric; double precision averages to double precision. -/
def pgAvgTy (t : PgTy) : PgTy :=
  match t with
  | .numeric => .numeric
  | .int4 => .numeric
  | .float8 => .float8

/-- Result type of the arithmetic operators on these types: anything
mixed with double precision is double precision (the only implicit
cast from numeric goes to double precision), otherwise numeric wins
over integer. -/
def pgArithTy (a b : PgTy) : PgTy :=
  if a = PgTy.float8 ∨ b = PgTy.float8 then .float8
  else if a = PgTy.numeric ∨ b = PgTy.numeric then .numeric
  else .int4

/-- Declared type of core.production.production_mw (DECIMAL). -/
def productionMwTy : PgTy := .numeric

/-- Declared type of core.generator.capacity (FLOAT). -/
def capacityTy : PgTy := .float8

/-- The type of the first ROUND argument in get_generator_efficiency:
AVG(p.production_mw) / g.capacity * 100. -/
def efficiencyRoundArgTy : PgTy :=
  pgArithTy (pgArithTy (pgAvgTy productionMwTy) capacityTy) .int4

/-- Whether the two-argument ROUND(x, 2) resolves: PostgreSQL declares
round(numeric, integer) and only round(double precision) with a single
argument, so the call resolves exactly for a numeric first argument;
for double precision the planner raises undefined_function (42883). -/
def pgRound2Resolves (t : PgTy) : Bool :=
  decide (t = PgTy.numeric)

/-- One result row of get_generator_efficiency.  SUM, AVG and the
derived efficiency are NULL (none) for a generator with no production
rows in range, since every joined production column is NULL for it. -/
structure EffRow where
  generator_id : Nat
  type_name : String
  capacity : ℚ
  total_production : Option ℚ
  avg_daily_production : Option ℚ
  efficiency_percentage : Option ℚ
deriving DecidableEq

/-- The production rows of generator gid that fall in [s, e] (the LEFT
JOIN condition of get_generator_efficiency). -/
def inRangeProds (s e : Nat) (st : State) (gid : Nat) : List ProdRow :=
  st.productions.filter (fun p =>
    decide (p.generatorId = gid) && decide (s ≤ p.date) && decide (p.date ≤ e))

/-- The aggregate row get_generator_efficiency is written to compute
for one generator g (one GROUP BY g.id, t.name, g.capacity group): SUM
and AVG over its in-range production rows, and ROUND(AVG / capacity *
100, 2).  This is the value the SELECT list denotes when the ROUND
call resolves; the enclosing function checks that resolution first and
in fact never reaches this computation (see get_generator_efficiency). -/
def effRowFor (s e : Nat) (st : State) (g : GenRow) (t : TypeRow) : EffRow :=
  let ps := inRangeProds s e st g.id
  if ps.isEmpty then
    { generator_id := g.id, type_name := t.name, capacity := g.capacity,
      total_production := none, avg_daily_production := none,
      efficiency_percentage := none }
  else
    let tot := (ps.map (fun p => p.productionMW)).sum
    let avg := tot / (ps.length : ℚ)
    { generator_id := g.id, type_name := t.name, capacity := g.capacity,
      total_production := some tot, avg_daily_production := some avg,
      efficiency_percentage := some (round2 (avg / g.capacity * 100)) }

/-- The ORDER BY efficiency_percentage DESC NULLS LAST comparison. -/
def effLE (a b : EffRow) : Bool :=
  match a.efficiency_percentage, b.efficiency_percentage with
  | some x, some y => decide (y ≤ x)
  | some _, none => true
  | none, some _ => false
  | none, none => true

/-- core.get_generator_efficiency.  The query is written to emit one
aggregate row per generator (LEFT JOIN from generators, so generators
without production rows in range are kept), ordered by efficiency
descending with NULLs last — but before any row is produced the
planner must resolve ROUND(AVG(p.production_mw) / g.capacity * 100, 2),
whose first argument is double precision because capacity is FLOAT;
that resolution fails (SQLSTATE 42883), so every invocation raises the
undefined-function error and no rows are ever emitted. -/
def get_generator_efficiency (s e : Nat) (st : State) : Except RepoErr (List EffRow) :=
  if pgRound2Resolves efficiencyRoundArgTy then
    .ok ((st.generators.filterMap (fun g =>
      (st.types.find? (fun t => t.id = g.typeId)).map (effRowFor s e st g))).mergeSort effLE)
  else
    .error .undefinedFunction

/-! ## SQL analytical function core.get_renewable_summary -/

/-- One result row of get_renewable_summary. -/
structure SummaryRow where
  energy_type : String
  total_capacity : ℚ
  generator_count : Nat
  total_production : ℚ
  avg_production : ℚ
  percentage_of_total : ℚ
deriving DecidableEq

/-- The production rows in the inclusive range [s, e]. -/
def prodInRange (s e : Nat) (st : State) : List ProdRow :=
  st.productions.filter (fun p => decide (s ≤ p.date) && decide (p.date ≤ e))

/-- SELECT SUM(production_mw) FROM core.production in range, with NULL
coalesced to 0 (an empty range sums to 0). -/
def total_all_production (s e : Nat) (st : State) : ℚ :=
  ((prodInRange s e st).map (fun p => p.productionMW)).sum

/-- The INNER JOIN of types with generators on t.id = g.type. -/
def typeGenPairs (st : State) : List (TypeRow × GenRow) :=
  st.types.flatMap (fun t =>
    (st.generators.filter (fun g => g.typeId = t.id)).map (fun g => (t, g)))

/-- The LEFT JOIN of the type/generator pairs with isrenuevable = b
against the in-range production rows: a pair with no matching
production contributes one row with a NULL production. -/
def summaryLeftRows (s e : Nat) (st : State) (b : Bool) :
    List (TypeRow × GenRow × Option ProdRow) :=
  ((typeGenPairs st).filter (fun x => x.1.isRenewable = b)).flatMap (fun x =>
    if ((prodInRange s e st).filter (fun p => p.generatorId = x.2.id)).isEmpty then
      [(x.1, x.2, none)]
    else
      ((prodInRange s e st).filter (fun p => p.generatorId = x.2.id)).map
        (fun p => (x.1, x.2, some p)))

/-- The aggregate row of get_renewable_summary for one GROUP BY
t.isrenuevable group: SUM(g.capacity), COUNT(DISTINCT g.id),
COALESCE(SUM(p.production_mw), 0), COALESCE(AVG(p.production_mw), 0)
and the guarded percentage of the grand total. -/
def summaryRowFor (s e : Nat) (st : State) (b : Bool) : SummaryRow :=
  let rows := summaryLeftRows s e st b
  let vals := rows.filterMap (fun r => r.2.2.map (fun p => p.productionMW))
  { energy_type := if b then "Renewable" else "Non-Renewable",
    total_capacity := (rows.map (fun r => r.2.1.capacity)).sum,
    generator_count := ((rows.map (fun r => r.2.1.id)).dedup).length,
    total_production := vals.sum,
    avg_production := if vals.isEmpty then 0 else vals.sum / (vals.length : ℚ),
    percentage_of_total :=
      if 0 < total_all_production s e st then
        round2 (vals.sum / total_all_production s e st * 100)
      else 0 }

/-- core.get_renewable_summary: one aggregate row per isrenuevable
value realized by the type/generator join, ordered by the energy_type
label. -/
def get_renewable_summary (s e : Nat) (st : State) : List SummaryRow :=
  ((((typeGenPairs st).map (fun x => x.1.isRenewable)).dedup).map
    (summaryRowFor s e st)).mergeSort (fun a b => decide (a.energy_type ≤ b.energy_type))

/-! ## HTTP boundary: query-parameter parsing and error mapping -/

/-- Go strconv.ParseBool: accepts 1, t, T, TRUE, true, True as true and
0, f, F, FALSE, false, False as false; anything else is an error. -/
def parseBool (s : String) : Option Bool :=
  match s with
  | "1" | "t" | "T" | "TRUE" | "true" | "True" => some true
  | "0" | "f" | "F" | "FALSE" | "false" | "False" => some false
  | _ => none

/-- How far TypeHandler.GetAllTypes gets before touching the store:
either it rejects with 400, or it calls the repository with the parsed
renewable filter.  The gin Query helper returns the empty string for an
absent parameter, which means no filter. -/
inductive TypesListOutcome where
  | badRequest
  | storeCall (filter : Option Bool)
deriving DecidableEq

/-- The parameter handling of TypeHandler.GetAllTypes: an absent
renewable parameter means no filter; a present one goes through
strconv.ParseBool, whose failure is a 400 without any store call. -/
def getAllTypesOutcome (renewableParam : String) : TypesListOutcome :=
  if renewableParam = "" then .storeCall none
  else
    match parseBool renewableParam with
    | some b => .storeCall (some b)
    | none => .badRequest

/-- How far ProductionHandler.GetAllProductions gets before touching
the store: a 400, or a store call carrying the parsed generator filter
and the date parameters exactly as the client sent them. -/
inductive ProdListOutcome where
  | badRequest
  | storeCall (genId : Option Nat) (startDate endDate : Option String)
deriving DecidableEq

/-- The parameter handling of ProductionHandler.GetAllProductions,
parameterized by the uuid.Parse of the google/uuid library: a non-empty
generatorId must parse as a UUID (else 400); startDate and endDate are
forwarded to the repository verbatim whenever non-empty, with no date
validation of any kind; empty means absent. -/
def getAllProductionsOutcome (uuidParse : String → Option Nat)
    (generatorIdParam startDateParam endDateParam : String) : ProdListOutcome :=
  if generatorIdParam = "" then
    .storeCall none
      (if startDateParam = "" then none else some startDateParam)
      (if endDateParam = "" then none else some endDateParam)
  else
    match uuidParse generatorIdParam with
    | none => .badRequest
    | some g =>
      .storeCall (some g)
        (if startDateParam = "" then none else some startDateParam)
        (if endDateParam = "" then none else some endDateParam)

/-- Whether a string is a calendar date in the unambiguous ISO 8601
YYYY-MM-DD layout: ten characters, digits and hyphens in the right
positions, month 01-12, day 01-31. -/
def isISODate (s : String) : Bool :=
  match s.data with
  | [y1, y2, y3, y4, h1, m1, m2, h2, d1, d2] =>
    y1.isDigit && y2.isDigit && y3.isDigit && y4.isDigit &&
    h1 == '-' && h2 == '-' &&
    m1.isDigit && m2.isDigit && d1.isDigit && d2.isDigit &&
    (let m := (m1.toNat - '0'.toNat) * 10 + (m2.toNat - '0'.toNat)
     let d := (d1.toNat - '0'.toNat) * 10 + (d2.toNat - '0'.toNat)
     decide (1 ≤ m) && decide (m ≤ 12) && decide (1 ≤ d) && decide (d ≤ 31))
  | _ => false

/-- The status code produced by TypeHandler.CreateType: 400 when the
JSON body fails binding, 500 for every repository error (the handler
does not inspect which store failure occurred), 201 on success. -/
def createTypeStatus (bindOk : Bool) (repoResult : Except RepoErr TypeRow) : Nat :=
  if bindOk = false then 400
  else
    match repoResult with
    | .error _ => 500
    | .ok _ => 201

/-- The status code produced by GeneratorHandler.CreateGenerator: same
shape as CreateType — 400 on bind failure, 500 on any repository
error, 201 on success. -/
def createGeneratorStatus (bindOk : Bool) (repoResult : Except RepoErr GenRow) : Nat :=
  if bindOk = false then 400
  else
    match repoResult with
    | .error _ => 500
    | .ok _ => 201

/-- The status code produced by ProductionHandler.CreateProduction:
400 on bind failure, 500 on any repository error, 201 on success. -/
def createProductionStatus (bindOk : Bool) (repoResult : Except RepoErr ProdRow) : Nat :=
  if bindOk = false then 400
  else
    match repoResult with
    | .error _ => 500
    | .ok _ => 201

/-! ## HTTP boundary: list endpoints and the nil-slice guard -/

/-- A serialized JSON value for a list-valued response body: a Go nil
slice marshals to null, a non-nil slice to an array. -/
inductive JsonList (α : Type) where
  | null
  | arr (xs : List α)
deriving DecidableEq

/-- Marshalling of a Go slice ([]T, nil represented as none). -/
def jsonOf {α : Type} (r : Option (List α)) : JsonList α :=
  match r with
  | none => .null
  | some xs => .arr xs

/-- A handler response for a list endpoint: an error status, or a
status with a serialized list body. -/
inductive ListResponse (α : Type) where
  | error (status : Nat)
  | okList (status : Nat) (body : JsonList α)
deriving DecidableEq

/-- The repository GetAllTypes: SELECT with the optional isrenuevable
filter, ORDER BY name; the Go function appends into a nil slice, so a
query matching zero rows returns nil (none). -/
def repoGetAllTypes (st : State) (isRen : Option Bool) : Option (List TypeRow) :=
  let base : List TypeRow :=
    match isRen with
    | some b => st.types.filter (fun t => t.isRenewable = b)
    | none => st.types
  let rows := base.mergeSort (fun a b => decide (a.name ≤ b.name))
  if rows.isEmpty then none else some rows

/-- The repository GetAllGenerators: generators joined with their type,
optionally filtered by type id, ORDER BY t.name, g.capacity DESC; nil
(none) when no row matches. -/
def repoGetAllGenerators (st : State) (typeId : Option Nat) :
    Option (List (GenRow × TypeRow)) :=
  let base := st.generators.flatMap (fun g =>
    (st.types.filter (fun t => t.id = g.typeId)).map (fun t => (g, t)))
  let filtered : List (GenRow × TypeRow) :=
    match typeId with
    | some tid => base.filter (fun x => x.1.typeId = tid)
    | none => base
  let rows := filtered.mergeSort (fun a b =>
    decide (a.2.name < b.2.name) ||
      (decide (a.2.name = b.2.name) && decide (b.1.capacity ≤ a.1.capacity)))
  if rows.isEmpty then none else some rows

/-- The repository GetAllProductions: productions joined with generator
and type, filtered by the optional generator id and by the date bounds
(each date parameter is a string the database casts to a date; a cast
failure is a query error), ORDER BY date DESC then type name; nil
(none) when no row matches. -/
def repoGetAllProductions (dateCast : String → Option Nat) (st : State)
    (genId : Option Nat) (startDate endDate : Option String) :
    Except RepoErr (Option (List (ProdRow × GenRow × TypeRow))) :=
  let castOf : Option String → Except RepoErr (Option Nat) := fun o =>
    match o with
    | none => .ok none
    | some s =>
      match dateCast s with
      | none => .error .other
      | some d => .ok (some d)
  match castOf startDate, castOf endDate with
  | .error e, _ => .error e
  | _, .error e => .error e
  | .ok sd, .ok ed =>
    let base := st.productions.flatMap (fun p =>
      (st.generators.filter (fun g => g.id = p.generatorId)).flatMap (fun g =>
        (st.types.filter (fun t => t.id = g.typeId)).map (fun t => (p, g, t))))
    let rows :=
      (base.filter (fun x =>
        (match genId with | some gid => decide (x.1.generatorId = gid) | none => true) &&
        (match sd with | some d => decide (d ≤ x.1.date) | none => true) &&
        (match ed with | some d => decide (x.1.date ≤ d) | none => true))).mergeSort
        (fun a b =>
          decide (b.1.date < a.1.date) ||
            (decide (a.1.date = b.1.date) && decide (a.2.2.name ≤ b.2.2.name)))
    .ok (if rows.isEmpty then none else some rows)

/-- TypeHandler.GetAllTypes end to end on a pure store: parse the
renewable parameter, call the repository, replace a nil slice by an
empty one, respond 200. -/
def getAllTypesResponse (st : State) (renewableParam : String) :
    ListResponse TypeRow :=
  match getAllTypesOutcome renewableParam with
  | .badRequest => .error 400
  | .storeCall f =>
    let list := repoGetAllTypes st f
    let list' := if list = none then some [] else list
    .okList 200 (jsonOf list')

/-- GeneratorHandler.GetAllGenerators end to end on a pure store, with
the typeId parameter already UUID-parsed (none when absent). -/
def getAllGeneratorsResponse (st : State) (typeId : Option Nat) :
    ListResponse (GenRow × TypeRow) :=
  let list := repoGetAllGenerators st typeId
  let list' := if list = none then some [] else list
  .okList 200 (jsonOf list')

/-- ProductionHandler.GetAllProductions end to end on a pure store:
parse the parameters, call the repository, map a query error to 500,
replace a nil slice by an empty one, respond 200. -/
def getAllProductionsResponse (uuidParse : String → Option Nat)
    (dateCast : String → Option Nat) (st : State)
    (generatorIdParam startDateParam endDateParam : String) :
    ListResponse (ProdRow × GenRow × TypeRow) :=
  match getAllProductionsOutcome uuidParse generatorIdParam startDateParam endDateParam with
  | .badRequest => .error 400
  | .storeCall g sd ed =>
    match repoGetAllProductions dateCast st g sd ed with
    | .error _ => .error 500
    | .ok list =>
      let list' := if list = none then some [] else list
      .okList 200 (jsonOf list')

/-- Proof-layer abbreviation: the in-range production of one joined
type/generator pair (the per-pair share of SUM(p.production_mw)). -/
def pairProdSum (s e : Nat) (st : State) (x : TypeRow × GenRow) : ℚ :=
  (((prodInRange s e st).filter (fun p => p.generatorId = x.2.id)).map
    (fun p => p.productionMW)).sum

/-- Proof-layer abbreviation: the total in-range production attributed
to one renewable partition. -/
def keyProdSum (s e : Nat) (st : State) (b : Bool) : ℚ :=
  (((typeGenPairs st).filter (fun x => x.1.isRenewable = b)).map
    (pairProdSum s e st)).sum

/-! ## Helper lemmas -/

theorem sum_map_const {α : Type} (l : List α) (c : ℚ) :
    (l.map (fun _ => c)).sum = l.length * c := by
  induction l with
  | nil => simp
  | cons x xs ih => simp [ih]; ring

theorem sum_filter_eq {α : Type} (l : List α) (q : α → Bool) (f : α → ℚ) :
    ((l.filter q).map f).sum = (l.map (fun a => if q a then f a else 0)).sum := by
  induction l with
  | nil => simp
  | cons x xs ih =>
    by_cases h : q x
    · simp [List.filter_cons, h, ih]
    · simp [List.filter_cons, h, ih]

theorem sum_map_split (l : List (Nat × ℚ × Bool)) :
    (l.map (fun r => r.2.1)).sum
      = (l.map (fun r => if r.2.2 then r.2.1 else 0)).sum
        + (l.map (fun r => if r.2.2 = false then r.2.1 else 0)).sum := by
  induction l with
  | nil => simp
  | cons x xs ih =>
    simp only [List.map_cons, List.sum_cons, ih]
    cases hx : x.2.2 <;> simp [hx] <;> ring

theorem length_filterMap_of_forall_isSome {α β : Type} (l : List α) (f : α → Option β)
    (h : ∀ a ∈ l, (f a).isSome) : (l.filterMap f).length = l.length := by
  induction l with
  | nil => simp
  | cons x xs ih =>
    have hx := h x (by simp)
    cases hfx : f x with
    | none => rw [hfx] at hx; simp at hx
    | some b =>
      simp only [List.filterMap_cons, hfx, List.length_cons]
      rw [ih (fun a ha => h a (by simp [ha]))]

theorem find?_map_ite {α : Type} (l : List α) (P : α → Prop) [DecidablePred P] (b a : α)
    (h : l.find? (fun x => decide (P x)) = some a) (hb : P b) :
    (l.map (fun u => if P u then b else u)).find? (fun x => decide (P x)) = some b := by
  induction l with
  | nil => simp at h
  | cons x xs ih =>
    by_cases hx : P x
    · rw [List.map_cons, if_pos hx]
      exact List.find?_cons_of_pos _ (by simp [hb])
    · rw [List.find?_cons_of_neg _ (by simp [hx])] at h
      rw [List.map_cons, if_neg hx, List.find?_cons_of_neg _ (by simp [hx])]
      exact ih h

theorem countP_le_one_of_nodup_map {α β : Type} [DecidableEq β] (l : List α) (f : α → β)
    (v : β) (h : (l.map f).Nodup) : l.countP (fun a => decide (f a = v)) ≤ 1 := by
  induction l with
  | nil => simp
  | cons x xs ih =>
    rw [List.map_cons, List.nodup_cons] at h
    by_cases hx : f x = v
    · have hz : xs.countP (fun a => decide (f a = v)) = 0 := by
        rw [List.countP_eq_zero]
        intro a ha
        simp only [decide_eq_true_eq]
        intro hav
        exact h.1 (by rw [← hx, ← hav] at *; exact List.mem_map_of_mem f ha)
      simp [List.countP_cons, hx, hz]
    · have hd : decide (f x = v) = false := decide_eq_false hx
      rw [List.countP_cons, hd]
      simpa using ih h.2

theorem bool_nodup_cases (l : List Bool) (h : l.Nodup) :
    l = [] ∨ l = [true] ∨ l = [false] ∨ l = [true, false] ∨ l = [false, true] := by
  match l with
  | [] => exact Or.inl rfl
  | [a] => cases a
           · exact Or.inr (Or.inr (Or.inl rfl))
           · exact Or.inr (Or.inl rfl)
  | [a, b] =>
    cases a <;> cases b <;> simp_all
  | a :: b :: c :: tl =>
    exfalso
    rw [List.nodup_cons, List.nodup_cons] at h
    cases a <;> cases b <;> cases c <;> simp_all

theorem roundHalfAway_le (x : ℚ) : (roundHalfAway x : ℚ) ≤ x + 1/2 := by
  unfold roundHalfAway
  by_cases h : 0 ≤ x
  · rw [if_pos h]
    exact Int.floor_le (x + 1/2)
  · rw [if_neg h]
    have := Int.ceil_lt_add_one (x - 1/2)
    linarith

theorem round2_le (x : ℚ) : round2 x ≤ x + 1/200 := by
  unfold round2
  have h := roundHalfAway_le (x * 100)
  have h100 : (0:ℚ) < 100 := by norm_num
  calc (roundHalfAway (x * 100) : ℚ) / 100 ≤ (x * 100 + 1/2) / 100 :=
        (div_le_div_iff_of_pos_right h100).mpr h
    _ = x + 1/200 := by ring

/-! ## Claim theorems -/

/-- C1: the claim says UpdateType has partial-update merge semantics
(fields not supplied in the request keep their stored value).  The
repository instead writes every column from the request verbatim:
updating a type named Solar with a body that supplies only description
and isRenewable overwrites the name with the Go zero value (the empty
string), and a body that omits isRenewable makes the UPDATE set the
NOT NULL isrenuevable column to NULL, so the whole update fails.  This
theorem evaluates the code at that failing input. -/
theorem update_type_overwrites_unsupplied_fields :
    UpdateType
        { types := [{ id := 1, name := "Solar", description := "Sun power",
                      isRenewable := true }],
          generators := [], productions := [] } 1
        { name := "", description := "Updated", isRenewable := some true }
      = .ok ({ types := [{ id := 1, name := "", description := "Updated",
                           isRenewable := true }],
               generators := [], productions := [] },
             { id := 1, name := "", description := "Updated", isRenewable := true })
  ∧ UpdateType
        { types := [{ id := 1, name := "Solar", description := "Sun power",
                      isRenewable := true }],
          generators := [], productions := [] } 1
        { name := "Solar", description := "Sun power", isRenewable := none }
      = .error .notNullViolation := ⟨rfl, rfl⟩

/-- C7 counterexample: the claim says a uniqueness violation maps to
HTTP 400 or 409 and a foreign-key violation to 400.  The create
handlers map every repository error, these included, to 500. -/
theorem create_uniqueness_error_status_counterexample :
    createTypeStatus true (.error .duplicateName) = 500
  ∧ createTypeStatus true (.error .duplicateName) ≠ 400
  ∧ createTypeStatus true (.error .duplicateName) ≠ 409
  ∧ createGeneratorStatus true (.error .fkViolation) ≠ 400
  ∧ createProductionStatus true (.error .duplicatePeriod) ≠ 400
  ∧ createProductionStatus true (.error .duplicatePeriod) ≠ 409 := by
  refine ⟨rfl, ?_, ?_, ?_, ?_, ?_⟩ <;> decide

/-- C7 amended: the create handlers do not distinguish store failures:
every repository error (uniqueness violations, foreign-key violations
and all others alike) is mapped to HTTP 500; a malformed request body
maps to 400 and success to 201. -/
theorem create_store_errors_map_to_500 (e : RepoErr) (t : TypeRow) (g : GenRow)
    (p : ProdRow) :
    createTypeStatus true (.error e) = 500
  ∧ createGeneratorStatus true (.error e) = 500
  ∧ createProductionStatus true (.error e) = 500
  ∧ createTypeStatus true (.ok t) = 201
  ∧ createGeneratorStatus true (.ok g) = 201
  ∧ createProductionStatus true (.ok p) = 201
  ∧ createTypeStatus false (.error e) = 400 :=
  ⟨rfl, rfl, rfl, rfl, rfl, rfl, rfl⟩

/-- C8 counterexample: the claim says exactly the tokens true and false
are accepted by the renewable filter.  strconv.ParseBool also accepts
the token T (among others), which reaches the store as a true filter
instead of failing with 400. -/
theorem renewable_filter_counterexample :
    getAllTypesOutcome "T" = .storeCall (some true)
  ∧ getAllTypesOutcome "T" ≠ .badRequest
  ∧ "T" ≠ "true" ∧ "T" ≠ "false" := by
  refine ⟨rfl, ?_, ?_, ?_⟩ <;> decide

/-- C8 helper: a token strconv.ParseBool accepts is one of its twelve
literals. -/
theorem parseBool_some_mem (s : String) (b : Bool) (hp : parseBool s = some b) :
    s ∈ (["1", "t", "T", "TRUE", "true", "True",
          "0", "f", "F", "FALSE", "false", "False"] : List String) := by
  unfold parseBool at hp
  split at hp <;> simp_all

/-- C8 amended: the renewable query filter is parsed with Go
strconv.ParseBool, so exactly the twelve tokens 1, t, T, TRUE, true,
True, 0, f, F, FALSE, false, False are accepted (and reach the store as
a boolean filter); every other non-empty token fails with 400 and no
store call is made. -/
theorem renewable_filter_parsebool_semantics (s : String) (hs : s ≠ "") :
    (getAllTypesOutcome s = .badRequest ↔ parseBool s = none)
  ∧ (∀ b, getAllTypesOutcome s = .storeCall (some b) ↔ parseBool s = some b)
  ∧ (parseBool s = none ↔
      s ∉ (["1", "t", "T", "TRUE", "true", "True",
            "0", "f", "F", "FALSE", "false", "False"] : List String)) := by
  have h1 : getAllTypesOutcome s =
      (match parseBool s with
       | some b => .storeCall (some b)
       | none => .badRequest) := by
    unfold getAllTypesOutcome
    rw [if_neg hs]
  refine ⟨?_, ?_, ?_⟩
  · rw [h1]; cases hp : parseBool s <;> simp
  · intro b; rw [h1]; cases hp : parseBool s <;> simp
  · constructor
    · intro hp hmem
      fin_cases hmem <;> simp [parseBool] at hp
    · intro hmem
      cases hp : parseBool s with
      | none => rfl
      | some b => exact absurd (parseBool_some_mem s b hp) hmem

/-- C8 witness: instantiating the amended claim at the token yes. -/
theorem renewable_filter_parsebool_semantics_witness :
    getAllTypesOutcome "yes" = .badRequest := by
  have h := (renewable_filter_parsebool_semantics "yes" (by decide)).1
  have hp : parseBool "yes" = none := rfl
  exact h.mpr hp

/-- C6 counterexample: the claim says a date parameter that is not a
well-formed calendar date is rejected with 400 before any store call.
The productions list handler performs no date validation at all: with
the malformed startDate 2025-13-99 it still calls the store,
forwarding the broken string verbatim. -/
theorem productions_malformed_date_reaches_store :
    isISODate "2025-13-99" = false
  ∧ getAllProductionsOutcome (fun _ => none) "" "2025-13-99" ""
      = .storeCall none (some "2025-13-99") none :=
  ⟨by decide, rfl⟩

/-- C6 amended: date parameters of the productions list endpoint are
not validated at the boundary.  Whenever the generatorId parameter is
absent or parses as a UUID, the handler always reaches the store,
forwarding any non-empty startDate/endDate strings verbatim (malformed
dates included); an absent (empty) date parameter means that bound is
unconstrained.  Only a non-empty generatorId that fails UUID parsing is
rejected with 400 before the store call. -/
theorem productions_date_params_forwarded (uuidParse : String → Option Nat)
    (gp sp ep : String) :
    (gp = "" → getAllProductionsOutcome uuidParse gp sp ep =
        .storeCall none (if sp = "" then none else some sp)
          (if ep = "" then none else some ep))
  ∧ (∀ g, gp ≠ "" → uuidParse gp = some g →
        getAllProductionsOutcome uuidParse gp sp ep =
          .storeCall (some g) (if sp = "" then none else some sp)
            (if ep = "" then none else some ep))
  ∧ (gp ≠ "" → uuidParse gp = none →
        getAllProductionsOutcome uuidParse gp sp ep = .badRequest) := by
  refine ⟨?_, ?_, ?_⟩
  · intro h
    unfold getAllProductionsOutcome
    rw [if_pos h]
  · intro g h hg
    unfold getAllProductionsOutcome
    rw [if_neg h, hg]
  · intro h hg
    unfold getAllProductionsOutcome
    rw [if_neg h, hg]

/-- C6 witness: the amended claim applied to a request with no
generator filter and a malformed start date. -/
theorem productions_date_params_forwarded_witness :
    getAllProductionsOutcome (fun _ => some 7) "" "2025-02-30" ""
      = .storeCall none (some "2025-02-30") none := by
  have h := (productions_date_params_forwarded (fun _ => some 7) "" "2025-02-30" "").1 rfl
  simpa using h

/-- C9: for an existing production record, an update that supplies only
productionMW (generatorId and date pointers nil) leaves the stored
record's generatorId and date unchanged: the COALESCE merge keeps the
previous values, and the returned view reflects the merged row. -/
theorem update_production_merge_semantics (st : State) (id : Nat) (v : ℚ)
    (p : ProdRow) (st' : State) (view : ProdView)
    (hfind : st.productions.find? (fun q => q.id = id) = some p)
    (hok : UpdateProduction st id
        { generatorID := none, date := none, productionMW := some v }
      = .ok (st', view)) :
    st'.productions.find? (fun q => q.id = id) =
      some { id := p.id, generatorId := p.generatorId, date := p.date,
             productionMW := v }
  ∧ view.date = p.date ∧ view.generatorId = p.generatorId
  ∧ view.productionMW = v := by
  have hpid : p.id = id := by
    have := List.find?_some hfind
    simpa using this
  unfold UpdateProduction at hok
  rw [hfind] at hok
  simp only [Option.getD_none, Option.getD_some] at hok
  set p' : ProdRow :=
    { id := p.id, generatorId := p.generatorId, date := p.date,
      productionMW := v } with hp'
  by_cases hu : st.productions.any (fun q =>
      decide (q.id ≠ id) && decide (q.generatorId = p.generatorId)
        && decide (q.date = p.date))
  · rw [if_pos hu] at hok
    exact absurd hok (by simp)
  · rw [if_neg hu] at hok
    by_cases hf : st.generators.all (fun g => decide (g.id ≠ p.generatorId))
    · rw [if_pos hf] at hok
      exact absurd hok (by simp)
    · rw [if_neg hf] at hok
      set stM : State :=
        { st with productions :=
            st.productions.map (fun q => if q.id = id then p' else q) } with hstM
      have hfind2 : stM.productions.find? (fun q => q.id = id) = some p' := by
        simpa using find?_map_ite st.productions (fun q => q.id = id) p' p hfind hpid
      have hred : GetProductionByID stM id =
          (match stM.generators.find? (fun g => g.id = p'.generatorId) with
           | none => .error .noRows
           | some g =>
             match stM.types.find? (fun t => t.id = g.typeId) with
             | none => .error .noRows
             | some t =>
               .ok { id := p'.id, generatorId := p'.generatorId,
                     generatorCapacity := g.capacity, typeName := t.name,
                     isRenewable := t.isRenewable, date := p'.date,
                     productionMW := p'.productionMW }) := by
        unfold GetProductionByID
        rw [hfind2]
      cases hG : GetProductionByID stM id with
      | error e =>
        rw [hG] at hok
        exact absurd hok (by simp)
      | ok w =>
        rw [hG] at hok
        have hpair : stM = st' ∧ w = view := by simpa using hok
        rw [hred] at hG
        simp only [] at hG
        cases hg : stM.generators.find? (fun g => g.id = p'.generatorId) with
        | none => rw [hg] at hG; simp at hG
        | some g =>
          rw [hg] at hG
          simp only [] at hG
          cases htt : stM.types.find? (fun t => t.id = g.typeId) with
          | none => rw [htt] at hG; simp at hG
          | some t =>
            rw [htt] at hG
            simp only [Except.ok.injEq] at hG
            have hw : w = { id := p'.id, generatorId := p'.generatorId,
                            generatorCapacity := g.capacity, typeName := t.name,
                            isRenewable := t.isRenewable, date := p'.date,
                            productionMW := p'.productionMW } := hG.symm
            obtain ⟨hstEq, hvEq⟩ := hpair
            refine ⟨by rw [← hstEq]; exact hfind2, ?_, ?_, ?_⟩ <;>
              simp [← hvEq, hw, hp']

/-- C9 witness: a concrete store with one production record updated by
a body carrying only productionMW. -/
theorem update_production_merge_semantics_witness :
    ({ types := [{ id := 1, name := "Solar", description := "Sun", isRenewable := true }],
       generators := [{ id := 2, typeId := 1, capacity := 100 }],
       productions := [{ id := 3, generatorId := 2, date := 5, productionMW := 55 }] }
        : State).productions.find? (fun q => q.id = 3) =
      some { id := 3, generatorId := 2, date := 5, productionMW := 55 } := by
  have h := update_production_merge_semantics
    { types := [{ id := 1, name := "Solar", description := "Sun", isRenewable := true }],
      generators := [{ id := 2, typeId := 1, capacity := 100 }],
      productions := [{ id := 3, generatorId := 2, date := 5, productionMW := 40 }] }
    3 55
    { id := 3, generatorId := 2, date := 5, productionMW := 40 }
    { types := [{ id := 1, name := "Solar", description := "Sun", isRenewable := true }],
      generators := [{ id := 2, typeId := 1, capacity := 100 }],
      productions := [{ id := 3, generatorId := 2, date := 5, productionMW := 55 }] }
    { id := 3, generatorId := 2, generatorCapacity := 100, typeName := "Solar",
      isRenewable := true, date := 5, productionMW := 55 }
    rfl rfl
  exact h.1

/-- C5 helper: starting from any store whose type names are (case
insensitively) fresh for all the requests, a sequence of valid
insert_type calls with pairwise distinct case-insensitive names
succeeds. -/
theorem insert_type_all_ok (reqs : List CreateTypeReq) (st : State)
    (hvalid : ∀ r ∈ reqs, 0 < r.name.length ∧ r.name.length ≤ 20 ∧
        0 < r.description.length ∧ r.description.length ≤ 80)
    (hdist : reqs.Pairwise (fun a b => lowerStr a.name ≠ lowerStr b.name))
    (hfresh : ∀ r ∈ reqs, ∀ t ∈ st.types, lowerStr t.name ≠ lowerStr r.name) :
    ∃ stf, insert_type_all st reqs = .ok stf := by
  induction reqs generalizing st with
  | nil => exact ⟨st, rfl⟩
  | cons r rs ih =>
    have hv := hvalid r (by simp)
    have h1 : ¬(r.name.length = 0 ∨ r.description.length = 0) := by
      simp only [not_or]
      omega
    have h2 : ¬(st.types.any (fun t => lowerStr t.name = lowerStr r.name) = true) := by
      simp only [List.any_eq_true, decide_eq_true_eq, not_exists, not_and]
      intro t ht
      exact hfresh r (by simp) t ht
    have h3 : ¬(20 < r.name.length ∨ 80 < r.description.length) := by
      simp only [not_or]
      omega
    set st2 : State :=
      { st with types := st.types ++
          [{ id := typeNextId st, name := r.name,
             description := r.description, isRenewable := r.isRenewable }] } with hst2
    have hins : insert_type st r.name r.description r.isRenewable = .ok st2 := by
      unfold insert_type
      rw [if_neg h1, if_neg h2, if_neg h3]
    have hpc := List.pairwise_cons.mp hdist
    have hfresh2 : ∀ r' ∈ rs, ∀ t ∈ st2.types, lowerStr t.name ≠ lowerStr r'.name := by
      intro r' hr' t ht
      rw [hst2] at ht
      simp only [List.mem_append, List.mem_singleton] at ht
      cases ht with
      | inl hold => exact hfresh r' (by simp [hr']) t hold
      | inr hnew =>
        rw [hnew]
        exact hpc.1 r' hr'
    obtain ⟨stf, hstf⟩ := ih st2 (fun a ha => hvalid a (by simp [ha])) hpc.2 hfresh2
    refine ⟨stf, ?_⟩
    have hstep : insert_type_all st (r :: rs) = insert_type_all st2 rs := by
      simp only [insert_type_all]
      rw [hins]
    rw [hstep]
    exact hstf

/-- C5: valid type creations with pairwise distinct case-insensitive
names all succeed (starting from an empty store), and inserting a name
whose lower() form coincides with an existing type's name fails with
the duplicate-name error: the duplicate check of core.insert_type
compares lower(name) on both sides. -/
theorem insert_type_case_insensitive_duplicates
    (reqs : List CreateTypeReq)
    (hvalid : ∀ r ∈ reqs, 0 < r.name.length ∧ r.name.length ≤ 20 ∧
        0 < r.description.length ∧ r.description.length ≤ 80)
    (hdist : reqs.Pairwise (fun a b => lowerStr a.name ≠ lowerStr b.name))
    (st : State) (t : TypeRow) (n d : String) (bb : Bool)
    (ht : t ∈ st.types) (hn : lowerStr n = lowerStr t.name)
    (hne : n.length ≠ 0) (hde : d.length ≠ 0) :
    (∃ stf, insert_type_all { types := [], generators := [], productions := [] } reqs
        = .ok stf)
  ∧ insert_type st n d bb = .error .duplicateName := by
  constructor
  · exact insert_type_all_ok reqs _ hvalid hdist (by intro r _ u hu; simp at hu)
  · have h1 : ¬(n.length = 0 ∨ d.length = 0) := by
      simp only [not_or]
      exact ⟨hne, hde⟩
    have h2 : st.types.any (fun u => lowerStr u.name = lowerStr n) = true :=
      List.any_eq_true.mpr ⟨t, ht, by simp [hn.symm]⟩
    unfold insert_type
    rw [if_neg h1, if_pos h2]

/-- C5 witness: two distinct creations succeed from the empty store,
and re-creating Solar as SOLAR fails with the duplicate-name error. -/
theorem insert_type_case_insensitive_duplicates_witness :
    (∃ stf, insert_type_all { types := [], generators := [], productions := [] }
        [{ name := "Solar", description := "Sun", isRenewable := true },
         { name := "Wind", description := "Air", isRenewable := true }] = .ok stf)
  ∧ insert_type
      { types := [{ id := 1, name := "Solar", description := "Sun", isRenewable := true }],
        generators := [], productions := [] } "SOLAR" "Desc" false
      = .error .duplicateName := by
  exact insert_type_case_insensitive_duplicates
    [{ name := "Solar", description := "Sun", isRenewable := true },
     { name := "Wind", description := "Air", isRenewable := true }]
    (by decide) (by decide)
    { types := [{ id := 1, name := "Solar", description := "Sun", isRenewable := true }],
      generators := [], productions := [] }
    { id := 1, name := "Solar", description := "Sun", isRenewable := true }
    "SOLAR" "Desc" false (by decide) (by decide) (by decide) (by decide)

/-- C10: whenever a list endpoint matches zero records the repository
hands the handler a nil slice, and the handler replaces it with an
empty slice before serializing, so the response is HTTP 200 with an
empty JSON array and never a JSON null body.  Stated for the three list
endpoints (types with a parsed renewable filter, generators with an
optional type filter, productions with parsed parameters). -/
theorem empty_list_endpoints_return_empty_array
    (st : State) (renParam : String) (f : Option Bool)
    (hty : getAllTypesOutcome renParam = .storeCall f)
    (hz : repoGetAllTypes st f = none)
    (tid : Option Nat)
    (hzg : repoGetAllGenerators st tid = none)
    (uuidParse dateCast : String → Option Nat) (gp sp ep : String)
    (g : Option Nat) (sd ed : Option String)
    (hpo : getAllProductionsOutcome uuidParse gp sp ep = .storeCall g sd ed)
    (hzp : repoGetAllProductions dateCast st g sd ed = .ok none) :
    getAllTypesResponse st renParam = .okList 200 (.arr [])
  ∧ getAllGeneratorsResponse st tid = .okList 200 (.arr [])
  ∧ getAllProductionsResponse uuidParse dateCast st gp sp ep
      = .okList 200 (.arr []) := by
  refine ⟨?_, ?_, ?_⟩
  · unfold getAllTypesResponse
    rw [hty]
    simp only [] 
    rw [hz]
    simp [jsonOf]
  · unfold getAllGeneratorsResponse
    rw [hzg]
    simp [jsonOf]
  · unfold getAllProductionsResponse
    rw [hpo]
    simp only []
    rw [hzp]
    simp [jsonOf]

/-- C10 witness: the empty store with no filters on each endpoint. -/
theorem empty_list_endpoints_return_empty_array_witness :
    getAllTypesResponse { types := [], generators := [], productions := [] } ""
      = .okList 200 (.arr []) := by
  have h := empty_list_endpoints_return_empty_array
    { types := [], generators := [], productions := [] } "" none rfl
    (by simp [repoGetAllTypes])
    none (by simp [repoGetAllGenerators])
    (fun _ => none) (fun _ => none) "" "" "" none none none rfl
    (by simp [repoGetAllProductions])
  exact h.1

/-- C3: the per-date aggregation emits, per date with production in
range, a total equal to renewable plus non-renewable MW; every emitted
date has at least one production row in range (dates without rows are
omitted); rows are ordered by date descending; and an empty range
yields an empty result rather than an error. -/
theorem total_production_by_date_spec (st : State) (s e : Nat) :
    (∀ row ∈ get_total_production_by_date_range s e st,
        row.total_production = row.renewable_production + row.non_renewable_production)
  ∧ (∀ row ∈ get_total_production_by_date_range s e st,
        ∃ p ∈ st.productions, s ≤ p.date ∧ p.date ≤ e ∧ p.date = row.date)
  ∧ (get_total_production_by_date_range s e st).Pairwise (fun a b => b.date ≤ a.date)
  ∧ (st.productions.filter (fun p => decide (s ≤ p.date) && decide (p.date ≤ e)) = [] →
        get_total_production_by_date_range s e st = []) := by
  have hperm := List.mergeSort_perm
    (((joinedInRange s e st).map (fun r => r.1)).dedup.map (dateRowFor s e st))
    (fun a b => decide (b.date ≤ a.date))
  refine ⟨?_, ?_, ?_, ?_⟩
  · intro row hrow
    have hmem := hperm.mem_iff.mp hrow
    obtain ⟨d, _, hmk⟩ := List.mem_map.mp hmem
    rw [← hmk]
    exact sum_map_split _
  · intro row hrow
    have hmem := hperm.mem_iff.mp hrow
    obtain ⟨d, hd, hmk⟩ := List.mem_map.mp hmem
    have hd2 : d ∈ (joinedInRange s e st).map (fun r => r.1) := List.mem_dedup.mp hd
    obtain ⟨r, hr, hr1⟩ := List.mem_map.mp hd2
    unfold joinedInRange at hr
    obtain ⟨p, hp, h2⟩ := List.mem_flatMap.mp hr
    obtain ⟨gg, _, h3⟩ := List.mem_flatMap.mp h2
    obtain ⟨t, _, heq⟩ := List.mem_map.mp h3
    have hpmem := List.mem_filter.mp hp
    have hrange : s ≤ p.date ∧ p.date ≤ e := by
      have := hpmem.2
      simp only [Bool.and_eq_true, decide_eq_true_eq] at this
      exact this
    refine ⟨p, hpmem.1, hrange.1, hrange.2, ?_⟩
    have hpd : r.1 = p.date := by rw [← heq]
    rw [← hmk]
    show p.date = (dateRowFor s e st d).date
    have hdd : (dateRowFor s e st d).date = d := rfl
    rw [hdd, ← hr1, hpd]
  · have htrans : ∀ a b c : DateRow, (fun a b => decide (b.date ≤ a.date)) a b = true →
        (fun a b => decide (b.date ≤ a.date)) b c = true →
        (fun a b => decide (b.date ≤ a.date)) a c = true := by
      intro a b c hab hbc
      simp only [decide_eq_true_eq] at hab hbc ⊢
      exact le_trans hbc hab
    have htotal : ∀ a b : DateRow, ((fun a b => decide (b.date ≤ a.date)) a b ||
        (fun a b => decide (b.date ≤ a.date)) b a) = true := by
      intro a b
      simp only [Bool.or_eq_true, decide_eq_true_eq]
      exact Nat.le_total b.date a.date
    have hs := List.sorted_mergeSort htrans htotal
      (((joinedInRange s e st).map (fun r => r.1)).dedup.map (dateRowFor s e st))
    exact hs.imp (by intro a b h; simpa using h)
  · intro h
    have hJ : joinedInRange s e st = [] := by
      unfold joinedInRange
      rw [h]
      simp
    unfold get_total_production_by_date_range
    simp only [hJ]
    simp [List.mergeSort_nil]

/-- C3 witness: the aggregation applied to a one-production store. -/
theorem total_production_by_date_spec_witness :
    (∀ row ∈ get_total_production_by_date_range 0 10
        { types := [{ id := 1, name := "Solar", description := "Sun", isRenewable := true }],
          generators := [{ id := 2, typeId := 1, capacity := 100 }],
          productions := [{ id := 3, generatorId := 2, date := 5, productionMW := 50 }] },
        row.total_production = row.renewable_production + row.non_renewable_production)
  ∧ get_total_production_by_date_range 20 30
      { types := [{ id := 1, name := "Solar", description := "Sun", isRenewable := true }],
        generators := [{ id := 2, typeId := 1, capacity := 100 }],
        productions := [{ id := 3, generatorId := 2, date := 5, productionMW := 50 }] } = [] := by
  constructor
  · exact (total_production_by_date_spec
      { types := [{ id := 1, name := "Solar", description := "Sun", isRenewable := true }],
        generators := [{ id := 2, typeId := 1, capacity := 100 }],
        productions := [{ id := 3, generatorId := 2, date := 5, productionMW := 50 }] }
      0 10).1
  · exact (total_production_by_date_spec
      { types := [{ id := 1, name := "Solar", description := "Sun", isRenewable := true }],
        generators := [{ id := 2, typeId := 1, capacity := 100 }],
        productions := [{ id := 3, generatorId := 2, date := 5, productionMW := 50 }] }
      20 30).2.2.2 (by decide)

/-- C2 helper: the NULLS LAST efficiency comparison is transitive. -/
theorem effLE_trans (a b c : EffRow) (hab : effLE a b = true) (hbc : effLE b c = true) :
    effLE a c = true := by
  unfold effLE at *
  cases ha : a.efficiency_percentage <;> cases hb : b.efficiency_percentage <;>
    cases hc : c.efficiency_percentage <;> simp_all
  all_goals linarith

/-- C2 helper: the NULLS LAST efficiency comparison is total. -/
theorem effLE_total (a b : EffRow) : (effLE a b || effLE b a) = true := by
  unfold effLE
  cases ha : a.efficiency_percentage <;> cases hb : b.efficiency_percentage <;> simp_all
  exact le_total _ _

/-- C2: the claim says the generator-efficiency computation emits one
row per generator with efficiency ROUND(average / capacity * 100, 2),
null rows last, ordered by efficiency descending.  The code cannot do
any of this: production_mw is DECIMAL but capacity is FLOAT, so the
first ROUND argument types as double precision, for which PostgreSQL
declares no two-argument round — the function raises the
undefined-function error (42883) on every invocation and never emits a
row.  Proved for every state and date range, and evaluated at the
spec's concrete scenario (type Solar, generator of capacity 100, one
production of 50 MW in range), where the claim expects a row with
efficiency 50.00 and the code yields an error instead. -/
theorem generator_efficiency_never_emits_rows :
    (∀ (s e : Nat) (st : State),
        get_generator_efficiency s e st = .error .undefinedFunction)
  ∧ get_generator_efficiency 0 10
      { types := [{ id := 1, name := "Solar", description := "Sun", isRenewable := true }],
        generators := [{ id := 2, typeId := 1, capacity := 100 }],
        productions := [{ id := 3, generatorId := 2, date := 5, productionMW := 50 }] }
      = .error .undefinedFunction :=
  ⟨fun _ _ _ => rfl, rfl⟩

/-- C4 helper: a filterMap of always-some values is a map. -/
theorem filterMap_some_map {α β : Type} (l : List α) (f : α → β) :
    l.filterMap (fun a => some (f a)) = l.map f := by
  induction l with
  | nil => simp
  | cons x xs ih => simp [List.filterMap_cons, ih]

/-- C4 helper: summing the non-NULL production values of the LEFT JOIN
rows of one partition gives the partition's production total. -/
theorem summary_vals_sum (s e : Nat) (st : State) (b : Bool) :
    ((summaryLeftRows s e st b).filterMap
      (fun r => r.2.2.map (fun p => p.productionMW))).sum = keyProdSum s e st b := by
  unfold summaryLeftRows keyProdSum
  generalize (typeGenPairs st).filter (fun x => x.1.isRenewable = b) = pairs
  induction pairs with
  | nil => simp
  | cons x xs ih =>
    rw [List.flatMap_cons, List.filterMap_append, List.sum_append, ih,
      List.map_cons, List.sum_cons]
    congr 1
    by_cases hm : ((prodInRange s e st).filter (fun p => p.generatorId = x.2.id)).isEmpty
    · have hnil := List.isEmpty_iff.mp hm
      simp [hm, pairProdSum, hnil]
    · rw [if_neg hm, List.filterMap_map]
      have hcomp : ((fun r : TypeRow × GenRow × Option ProdRow =>
          r.2.2.map (fun p => p.productionMW)) ∘ (fun p => (x.1, x.2, some p)))
          = fun p => some p.productionMW := rfl
      rw [hcomp, filterMap_some_map]
      rfl

/-- C4 helper: the percentage field of a partition row, expressed with
the partition production total. -/
theorem summaryRow_percentage (s e : Nat) (st : State) (b : Bool) :
    (summaryRowFor s e st b).percentage_of_total =
      if 0 < total_all_production s e st then
        round2 (keyProdSum s e st b / total_all_production s e st * 100)
      else 0 := by
  simp only [summaryRowFor]
  rw [summary_vals_sum]

/-- C4 helper: partition production totals are nonnegative when every
production value is. -/
theorem keyProdSum_nonneg (s e : Nat) (st : State)
    (hpos : ∀ p ∈ st.productions, 0 ≤ p.productionMW) (b : Bool) :
    0 ≤ keyProdSum s e st b := by
  apply List.sum_nonneg
  intro y hy
  obtain ⟨x, _, rfl⟩ := List.mem_map.mp hy
  apply List.sum_nonneg
  intro z hz
  obtain ⟨p, hp, rfl⟩ := List.mem_map.mp hz
  have h1 := (List.mem_filter.mp hp).1
  have h2 := (List.mem_filter.mp h1).1
  exact hpos p h2

/-- C4 helper: a nodup list of booleans sums a function to at most its
value at true plus its value at false, for a nonnegative function. -/
theorem keys_sum_le (f : Bool → ℚ) (hf : ∀ b, 0 ≤ f b) (keys : List Bool)
    (hk : keys.Nodup) : (keys.map f).sum ≤ f true + f false := by
  rcases bool_nodup_cases keys hk with h | h | h | h | h <;> rw [h] <;> simp
  all_goals linarith [hf true, hf false]

/-- C4 helper: the two partitions together account for every joined
type/generator pair exactly once. -/
theorem pairs_split_sum (s e : Nat) (st : State) (pairs : List (TypeRow × GenRow)) :
    ((pairs.filter (fun x => x.1.isRenewable = true)).map (pairProdSum s e st)).sum
      + ((pairs.filter (fun x => x.1.isRenewable = false)).map (pairProdSum s e st)).sum
    = (pairs.map (pairProdSum s e st)).sum := by
  rw [sum_filter_eq, sum_filter_eq, ← List.sum_map_add]
  apply congrArg
  apply List.map_congr_left
  intro x _
  by_cases hx : x.1.isRenewable <;> simp [hx]

/-- C4 helper: summing the per-pair production over all pairs counts
each in-range production once per pair whose generator id matches. -/
theorem typeGenPairs_prodSum_swap (s e : Nat) (st : State)
    (pairs : List (TypeRow × GenRow)) :
    (pairs.map (pairProdSum s e st)).sum
      = ((prodInRange s e st).map (fun p =>
          ((pairs.countP (fun x => p.generatorId = x.2.id) : ℚ)) * p.productionMW)).sum := by
  induction pairs with
  | nil => simp
  | cons x xs ih =>
    rw [List.map_cons, List.sum_cons, ih]
    have hpt : (prodInRange s e st).map (fun p =>
          (((x :: xs).countP (fun y => p.generatorId = y.2.id) : ℚ)) * p.productionMW)
        = (prodInRange s e st).map (fun p =>
          ((xs.countP (fun y => p.generatorId = y.2.id) : ℚ)) * p.productionMW
            + (if p.generatorId = x.2.id then p.productionMW else 0)) := by
      apply List.map_congr_left
      intro p _
      rw [List.countP_cons]
      by_cases h : p.generatorId = x.2.id
      · simp [h]
        ring
      · simp [h]
    rw [hpt, List.sum_map_add]
    have hhead : pairProdSum s e st x
        = ((prodInRange s e st).map (fun p =>
            if p.generatorId = x.2.id then p.productionMW else 0)).sum := by
      unfold pairProdSum
      rw [sum_filter_eq]
      apply congrArg
      apply List.map_congr_left
      intro p _
      by_cases h : p.generatorId = x.2.id <;> simp [h]
    rw [hhead]
    ring

/-- C4 helper: a map of indicator values sums to a count. -/
theorem sum_map_ite_count {α : Type} (l : List α) (P : α → Prop) [DecidablePred P] :
    (l.map (fun a => if P a then 1 else 0)).sum = l.countP (fun a => decide (P a)) := by
  induction l with
  | nil => simp
  | cons x xs ih =>
    rw [List.map_cons, List.sum_cons, List.countP_cons, ih]
    by_cases h : P x
    · simp [h]
      omega
    · simp [h]

/-- C4 helper: with distinct generator ids and distinct type ids, a
given generator id matches at most one joined type/generator pair, so
no production row is double counted across the partitions. -/
theorem countP_typeGenPairs_le_one (st : State)
    (hg : (st.generators.map (fun g => g.id)).Nodup)
    (ht : (st.types.map (fun t => t.id)).Nodup) (gid : Nat) :
    (typeGenPairs st).countP (fun x => gid = x.2.id) ≤ 1 := by
  unfold typeGenPairs
  rw [List.countP_flatMap]
  have hpt : ∀ t : TypeRow,
      (List.countP (fun x : TypeRow × GenRow => decide (gid = x.2.id))
        ((st.generators.filter (fun g => g.typeId = t.id)).map (fun g => (t, g))))
      = (st.generators.filter (fun g => g.typeId = t.id)).countP
          (fun g => decide (gid = g.id)) := by
    intro t
    rw [List.countP_map]
    rfl
  by_cases hex : ∃ g0 ∈ st.generators, g0.id = gid
  · obtain ⟨g0, hg0, hid0⟩ := hex
    have hbound : ∀ t ∈ st.types,
        (List.countP ((fun x : TypeRow × GenRow => decide (gid = x.2.id)) ∘ fun g => (t, g))
          (st.generators.filter (fun g => g.typeId = t.id)))
        ≤ if t.id = g0.typeId then 1 else 0 := by
      intro t _
      by_cases hti : t.id = g0.typeId
      · rw [if_pos hti]
        calc List.countP _ (st.generators.filter (fun g => g.typeId = t.id))
            ≤ st.generators.countP
                ((fun x : TypeRow × GenRow => decide (gid = x.2.id)) ∘ fun g => (t, g)) :=
              List.Sublist.countP_le _ (List.filter_sublist _)
          _ = st.generators.countP (fun g => decide (g.id = gid)) :=
              List.countP_congr (by intro a _; simp [Function.comp, eq_comm])
          _ ≤ 1 := countP_le_one_of_nodup_map st.generators (fun g => g.id) gid hg
      · rw [if_neg hti, Nat.le_zero, List.countP_eq_zero]
        intro a ha
        simp only [Function.comp, decide_eq_true_eq]
        intro haid
        have hafilter := List.mem_filter.mp ha
        have haeq : a = g0 := by
          apply List.inj_on_of_nodup_map hg hafilter.1 hg0
          rw [← haid, hid0]
        have hat : a.typeId = t.id := by simpa using hafilter.2
        rw [haeq] at hat
        exact hti hat.symm
    calc (st.types.map (List.countP (fun x : TypeRow × GenRow => decide (gid = x.2.id)) ∘
          fun t => (st.generators.filter (fun g => g.typeId = t.id)).map (fun g => (t, g)))).sum
        ≤ (st.types.map (fun t => if t.id = g0.typeId then 1 else 0)).sum := by
          apply List.sum_le_sum
          intro t htm
          have := hbound t htm
          simpa [Function.comp, List.countP_map] using this
      _ = st.types.countP (fun t => t.id = g0.typeId) := sum_map_ite_count _ _
      _ ≤ 1 := countP_le_one_of_nodup_map st.types (fun t => t.id) g0.typeId ht
  · push_neg at hex
    have hz : ∀ t ∈ st.types,
        (List.countP (fun x : TypeRow × GenRow => decide (gid = x.2.id)) ∘
          fun t => (st.generators.filter (fun g => g.typeId = t.id)).map (fun g => (t, g))) t = 0 := by
      intro t _
      simp only [Function.comp]
      rw [hpt t, List.countP_eq_zero]
      intro a ha
      simp only [decide_eq_true_eq]
      intro hgid
      exact hex a (List.mem_filter.mp ha).1 hgid.symm
    have : (st.types.map (List.countP (fun x : TypeRow × GenRow => decide (gid = x.2.id)) ∘
        fun t => (st.generators.filter (fun g => g.typeId = t.id)).map (fun g => (t, g)))).sum = 0 := by
      apply List.sum_eq_zero
      intro y hy
      obtain ⟨t, htm, rfl⟩ := List.mem_map.mp hy
      exact hz t htm
    omega

/-- C4: in the renewable summary both percentage fields are 0 when the
grand total production in range is 0 (the CASE guard never divides by
zero), and when the grand total is positive the percentage fields of
the partitions sum to at most 100 up to the 2-decimal rounding
tolerance (at most 100 + 1/100), under the schema invariants (distinct
generator and type ids) and nonnegative production values. -/
theorem renewable_summary_percentage_spec (st : State) (s e : Nat)
    (hg : (st.generators.map (fun g => g.id)).Nodup)
    (ht : (st.types.map (fun t => t.id)).Nodup)
    (hpos : ∀ p ∈ st.productions, 0 ≤ p.productionMW) :
    (total_all_production s e st = 0 →
       ∀ row ∈ get_renewable_summary s e st, row.percentage_of_total = 0)
  ∧ (0 < total_all_production s e st →
       ((get_renewable_summary s e st).map (fun r => r.percentage_of_total)).sum
         ≤ 100 + 1/100) := by
  have hperm := List.mergeSort_perm
    ((((typeGenPairs st).map (fun x => x.1.isRenewable)).dedup).map (summaryRowFor s e st))
    (fun a b => decide (a.energy_type ≤ b.energy_type))
  constructor
  · intro h0 row hrow
    have hmem : row ∈ (((typeGenPairs st).map
        (fun x => x.1.isRenewable)).dedup).map (summaryRowFor s e st) := by
      unfold get_renewable_summary at hrow
      exact hperm.mem_iff.mp hrow
    obtain ⟨b, _, hmk⟩ := List.mem_map.mp hmem
    rw [← hmk, summaryRow_percentage, h0]
    simp
  · intro hT
    have hmapsum : ((get_renewable_summary s e st).map (fun r => r.percentage_of_total)).sum
        = ((((typeGenPairs st).map (fun x => x.1.isRenewable)).dedup).map
            (fun b => (summaryRowFor s e st b).percentage_of_total)).sum := by
      unfold get_renewable_summary
      rw [(hperm.map (fun r => r.percentage_of_total)).sum_eq, List.map_map]
      rfl
    rw [hmapsum]
    have hrw : (((typeGenPairs st).map (fun x => x.1.isRenewable)).dedup).map
          (fun b => (summaryRowFor s e st b).percentage_of_total)
        = (((typeGenPairs st).map (fun x => x.1.isRenewable)).dedup).map
          (fun b => round2 (keyProdSum s e st b / total_all_production s e st * 100)) := by
      apply List.map_congr_left
      intro b _
      rw [summaryRow_percentage, if_pos hT]
    rw [hrw]
    set keys := ((typeGenPairs st).map (fun x => x.1.isRenewable)).dedup with hkeys
    have hknodup : keys.Nodup := List.nodup_dedup _
    have hlen : keys.length ≤ 2 := by
      rcases bool_nodup_cases keys hknodup with h | h | h | h | h <;> rw [h] <;> simp
    have hkey_le : (keys.map (keyProdSum s e st)).sum ≤ total_all_production s e st := by
      have h1 : (keys.map (keyProdSum s e st)).sum
          ≤ keyProdSum s e st true + keyProdSum s e st false :=
        keys_sum_le (keyProdSum s e st) (keyProdSum_nonneg s e st hpos) keys hknodup
      have h2 : keyProdSum s e st true + keyProdSum s e st false
          = ((typeGenPairs st).map (pairProdSum s e st)).sum := by
        unfold keyProdSum
        exact pairs_split_sum s e st (typeGenPairs st)
      have h3 : ((typeGenPairs st).map (pairProdSum s e st)).sum
          = ((prodInRange s e st).map (fun p =>
              (((typeGenPairs st).countP (fun x => p.generatorId = x.2.id) : ℚ))
                * p.productionMW)).sum :=
        typeGenPairs_prodSum_swap s e st (typeGenPairs st)
      have h4 : ((prodInRange s e st).map (fun p =>
            (((typeGenPairs st).countP (fun x => p.generatorId = x.2.id) : ℚ))
              * p.productionMW)).sum
          ≤ ((prodInRange s e st).map (fun p => p.productionMW)).sum := by
        apply List.sum_le_sum
        intro p hp
        have hc := countP_typeGenPairs_le_one st hg ht p.generatorId
        have hcq : (((typeGenPairs st).countP (fun x => p.generatorId = x.2.id)) : ℚ) ≤ 1 := by
          exact_mod_cast hc
        have hmw : 0 ≤ p.productionMW := hpos p (List.mem_filter.mp hp).1
        calc ((typeGenPairs st).countP (fun x => p.generatorId = x.2.id) : ℚ) * p.productionMW
            ≤ 1 * p.productionMW := mul_le_mul_of_nonneg_right hcq hmw
          _ = p.productionMW := one_mul _
      have h5 : ((prodInRange s e st).map (fun p => p.productionMW)).sum
          = total_all_production s e st := rfl
      linarith
    calc (keys.map (fun b =>
          round2 (keyProdSum s e st b / total_all_production s e st * 100))).sum
        ≤ (keys.map (fun b =>
            keyProdSum s e st b / total_all_production s e st * 100 + 1/200)).sum := by
          apply List.sum_le_sum
          intro b _
          exact round2_le _
      _ = (keys.map (fun b =>
            keyProdSum s e st b / total_all_production s e st * 100)).sum
            + (keys.map (fun _ => (1:ℚ)/200)).sum := List.sum_map_add
      _ ≤ 100 + 1/100 := by
          have hconst : (keys.map (fun _ => (1:ℚ)/200)).sum = keys.length * (1/200) :=
            sum_map_const _ _
          have hrw2 : keys.map (fun b =>
                keyProdSum s e st b / total_all_production s e st * 100)
              = keys.map (fun b =>
                keyProdSum s e st b * (100 / total_all_production s e st)) := by
            apply List.map_congr_left
            intro b _
            ring
          have hmul : (keys.map (fun b =>
                keyProdSum s e st b * (100 / total_all_production s e st))).sum
              = (keys.map (keyProdSum s e st)).sum * (100 / total_all_production s e st) :=
            List.sum_map_mul_right _ _ _
          have hfrac : (keys.map (keyProdSum s e st)).sum
              * (100 / total_all_production s e st) ≤ 100 := by
            have hpos100 : 0 ≤ 100 / total_all_production s e st :=
              div_nonneg (by norm_num) (le_of_lt hT)
            calc (keys.map (keyProdSum s e st)).sum * (100 / total_all_production s e st)
                ≤ total_all_production s e st * (100 / total_all_production s e st) :=
                  mul_le_mul_of_nonneg_right hkey_le hpos100
              _ = 100 := by field_simp
          have hlenq : (keys.length : ℚ) ≤ 2 := by exact_mod_cast hlen
          rw [hrw2, hmul, hconst]
          linarith

/-- C4 witness: the percentage bound applied to a store with one
renewable type, one generator and one in-range production of 50 MW. -/
theorem renewable_summary_percentage_spec_witness :
    ((get_renewable_summary 0 10
      { types := [{ id := 1, name := "Solar", description := "Sun", isRenewable := true }],
        generators := [{ id := 2, typeId := 1, capacity := 100 }],
        productions := [{ id := 3, generatorId := 2, date := 5, productionMW := 50 }] }).map
      (fun r => r.percentage_of_total)).sum ≤ 100 + 1/100 := by
  exact (renewable_summary_percentage_spec
    { types := [{ id := 1, name := "Solar", description := "Sun", isRenewable := true }],
      generators := [{ id := 2, typeId := 1, capacity := 100 }],
      productions := [{ id := 3, generatorId := 2, date := 5, productionMW := 50 }] }
    0 10 (by decide) (by decide) (by decide)).2
    (by norm_num [total_all_production, prodInRange, List.filter])

/-- C7 witness: the amended error mapping applied to concrete store
results. -/
theorem create_store_errors_map_to_500_witness :
    createTypeStatus true (.error .fkViolation) = 500
  ∧ createTypeStatus true
      (.ok { id := 1, name := "Solar", description := "Sun", isRenewable := true }) = 201 := by
  have h := create_store_errors_map_to_500 .fkViolation
    { id := 1, name := "Solar", description := "Sun", isRenewable := true }
    { id := 2, typeId := 1, capacity := 100 }
    { id := 3, generatorId := 2, date := 5, productionMW := 50 }
  exact ⟨h.1, h.2.2.2.1⟩
